import Mathlib

/-!
Verification of the systemctl-dashboard service engine (`src/dashboard.py`).

The Python source is shallowly embedded: every method of `SystemdDashboard`
that the claims mention is translated to an executable Lean definition.
External effects (subprocess calls, the sqlite store, the clock, file
reads) are passed in explicitly as values describing their outcomes, so
each Python method becomes a pure function of its inputs and of those
outcomes.  Python floats are modelled as exact rationals (`ℚ`) — the
dashboard's arithmetic (division by powers of 2 and by small totals) is
the regime in which doubles behave like exact arithmetic for realistic
byte counts.  Python strings are modelled as `String`, with the string
operations re-implemented structurally over `List Char` so that they
compute by kernel reduction.
-/

namespace Dashboard

/-! ### Python string primitives -/

/-- Value of a list of decimal digit characters, most significant first
(the behaviour of Python `int(...)` on a digit string). -/
def natOfDigits (l : List Char) : ℕ :=
  l.foldl (fun n c => 10 * n + (c.toNat - 48)) 0

/-- Python `str.isdigit()`: non-empty and all characters decimal digits. -/
def isDigits (l : List Char) : Bool :=
  !l.isEmpty && l.all Char.isDigit

/-- The `str.isdigit()` on a `String`. -/
def isDigitStr (s : String) : Bool := isDigits s.data

/-- Python `str.strip()` on a character list. -/
def trimChars (l : List Char) : List Char :=
  ((l.dropWhile Char.isWhitespace).reverse.dropWhile Char.isWhitespace).reverse

/-- Python `str.strip()`. -/
def pyStrip (s : String) : String := ⟨trimChars s.data⟩

/-- Worker for `splitCh`: `acc` is the current piece, reversed. -/
def splitChAux (sep : Char) : List Char → List Char → List (List Char)
  | [], acc => [acc.reverse]
  | c :: rest, acc =>
    if c = sep then acc.reverse :: splitChAux sep rest []
    else splitChAux sep rest (c :: acc)

/-- Python `s.split(sep)` for a one-character separator: splits at every
occurrence and keeps empty pieces. -/
def splitCh (sep : Char) (l : List Char) : List (List Char) :=
  splitChAux sep l []

/-- Python `s.split("\n")`. -/
def splitLines (s : String) : List String :=
  (splitCh '\n' s.data).map String.mk

/-- Worker for `pySplitWS`: `acc` is the current token, reversed. -/
def splitWSAux : List Char → List Char → List (List Char)
  | [], acc => if acc.isEmpty then [] else [acc.reverse]
  | c :: rest, acc =>
    if c.isWhitespace then
      (if acc.isEmpty then splitWSAux rest [] else acc.reverse :: splitWSAux rest [])
    else splitWSAux rest (c :: acc)

/-- Python `s.split()` with no argument: split on whitespace runs,
dropping empty tokens. -/
def pySplitWS (s : String) : List String :=
  (splitWSAux s.data []).map String.mk

/-- Split at the first occurrence of `sep`; `none` when `sep` is absent.
Models the combination of Python `sep in s` and `s.split(sep, 1)`. -/
def splitFirstChar (sep : Char) : List Char → Option (List Char × List Char)
  | [] => none
  | c :: rest =>
    if c = sep then some ([], rest)
    else (splitFirstChar sep rest).map (fun p => (c :: p.1, p.2))

/-- The `splitFirstChar` on a `String`. -/
def pySplitFirst (sep : Char) (s : String) : Option (String × String) :=
  (splitFirstChar sep s.data).map (fun p => (⟨p.1⟩, ⟨p.2⟩))

/-- Python `s.rstrip("%")`: drop every trailing `%`. -/
def rstripPercent (s : String) : String :=
  ⟨(s.data.reverse.dropWhile (fun c => c = '%')).reverse⟩

/-- Python `sep.join(parts)`. -/
def pyJoin (sep : String) : List String → String
  | [] => ""
  | [x] => x
  | x :: y :: rest => x ++ sep ++ pyJoin sep (y :: rest)

/-- Python `float(...)` restricted to the non-negative decimal literals
(`"123"`, `"3.1"`) that the dashboard feeds it; any other shape is a
`ValueError`, modelled as `none`. -/
def parseFloatChars (l : List Char) : Option ℚ :=
  match l.dropWhile Char.isDigit with
  | [] =>
    if (l.takeWhile Char.isDigit).isEmpty then none
    else some (natOfDigits (l.takeWhile Char.isDigit))
  | c :: fp =>
    if c = '.' then
      (if (l.takeWhile Char.isDigit).isEmpty || fp.isEmpty || !fp.all Char.isDigit then none
       else some ((natOfDigits (l.takeWhile Char.isDigit) : ℚ) +
         (natOfDigits fp : ℚ) / (10 : ℚ) ^ fp.length))
    else none

/-- The `parseFloatChars` on a `String`. -/
def pyFloat (s : String) : Option ℚ := parseFloatChars s.data

/-! ### Rendering with one decimal digit (Python `f"{x:.1f}"`) -/

/-- CPython rounds a float to one decimal place with round-half-to-even. -/
def roundHalfEven (y : ℚ) : ℤ :=
  if y - ⌊y⌋ < 1 / 2 then ⌊y⌋
  else if (1 : ℚ) / 2 < y - ⌊y⌋ then ⌊y⌋ + 1
  else if ⌊y⌋ % 2 = 0 then ⌊y⌋ else ⌊y⌋ + 1

/-- The `f"{q:.1f}"` for `0 ≤ q`: integer part, a dot, one decimal digit. -/
def fmtOneDecNN (q : ℚ) : String :=
  toString (roundHalfEven (q * 10) / 10) ++ "." ++
    toString (roundHalfEven (q * 10) % 10)

/-- The `f"{q:.1f}"` with the sign handled. -/
def fmtOneDec (q : ℚ) : String :=
  if q < 0 then "-" ++ fmtOneDecNN (-q) else fmtOneDecNN q

/-! ### `SystemdDashboard._format_bytes` (src/dashboard.py:166-171) -/

/-- The loop of `_format_bytes`: step through the unit suffixes, dividing
by 1024 while the value is not below 1024; after `GB` the value is
rendered as `TB` unconditionally. -/
def format_bytes_go : ℚ → List String → String
  | v, [] => fmtOneDec v ++ "TB"
  | v, u :: us => if v < 1024 then fmtOneDec v ++ u else format_bytes_go (v / 1024) us

/-- The `SystemdDashboard._format_bytes`. -/
def format_bytes (bytes_val : ℚ) : String :=
  format_bytes_go bytes_val ["B", "KB", "MB", "GB"]

/-! ### `SystemdDashboard._calculate_uptime` (src/dashboard.py:173-205) -/

/-- The bucketing on elapsed seconds at src/dashboard.py:192-203.
`uptime_seconds` is integral here (both datetimes are whole seconds), so
Python's `int(...)` truncations and `//`/`%` agree with `ℤ` arithmetic on
every branch (a negative elapsed time always lands in the first branch). -/
def uptime_bucket (s : ℤ) : String :=
  if s < 60 then toString s ++ "s"
  else if s < 3600 then toString (s / 60) ++ "m"
  else if s < 86400 then toString (s / 3600) ++ "h " ++ toString (s % 3600 / 60) ++ "m"
  else toString (s / 86400) ++ "d " ++ toString (s % 86400 / 3600) ++ "h"

/-- One attempt of the regex `(\d{4}-\d{2}-\d{2} \d{2}:\d{2}:\d{2})` at
the head of the text: the exact shape, digits checked. -/
def matchTS : List Char → Option (ℕ × ℕ × ℕ × ℕ × ℕ × ℕ)
  | y1 :: y2 :: y3 :: y4 :: '-' :: m1 :: m2 :: '-' :: d1 :: d2 :: ' ' ::
      h1 :: h2 :: ':' :: n1 :: n2 :: ':' :: s1 :: s2 :: _ =>
    if ([y1, y2, y3, y4, m1, m2, d1, d2, h1, h2, n1, n2, s1, s2].all Char.isDigit) then
      some (natOfDigits [y1, y2, y3, y4], natOfDigits [m1, m2], natOfDigits [d1, d2],
            natOfDigits [h1, h2], natOfDigits [n1, n2], natOfDigits [s1, s2])
    else none
  | _ => none

/-- The `re.search` for the timestamp pattern: leftmost match wins. -/
def searchTS : List Char → Option (ℕ × ℕ × ℕ × ℕ × ℕ × ℕ)
  | [] => none
  | c :: rest => (matchTS (c :: rest)).orElse (fun _ => searchTS rest)

/-- Gregorian leap year. -/
def isLeapYear (y : ℕ) : Bool :=
  (y % 4 == 0 && y % 100 != 0) || y % 400 == 0

/-- Length of a month. -/
def daysInMonth (y m : ℕ) : ℕ :=
  if m = 2 then (if isLeapYear y then 29 else 28)
  else if m = 4 ∨ m = 6 ∨ m = 9 ∨ m = 11 then 30 else 31

/-- Days since 1970-01-01 of a civil date (Hinnant's algorithm). -/
def daysFromCivil (y m d : ℕ) : ℤ :=
  let yy : ℤ := if m ≤ 2 then (y : ℤ) - 1 else (y : ℤ)
  let era : ℤ := (if 0 ≤ yy then yy else yy - 399) / 400
  let yoe : ℤ := yy - era * 400
  let mp : ℤ := ((m : ℤ) + 9) % 12
  let doy : ℤ := (153 * mp + 2) / 5 + (d : ℤ) - 1
  let doe : ℤ := yoe * 365 + yoe / 4 - yoe / 100 + doy
  era * 146097 + doe - 719468

/-- Seconds since the epoch of a civil datetime (what subtracting two
`datetime` values and taking `total_seconds()` is computed from). -/
def epochSeconds (y mo d h mi s : ℕ) : ℤ :=
  daysFromCivil y mo d * 86400 + (h : ℤ) * 3600 + (mi : ℤ) * 60 + (s : ℤ)

/-- The range checks under which `datetime.strptime(..., "%Y-%m-%d
%H:%M:%S")` succeeds; outside them it raises `ValueError`. -/
def strptimeValid (y mo d h mi s : ℕ) : Bool :=
  1 ≤ y && 1 ≤ mo && mo ≤ 12 && 1 ≤ d && d ≤ daysInMonth y mo &&
    h ≤ 23 && mi ≤ 59 && s ≤ 59

/-- The `SystemdDashboard._calculate_uptime`, with the clock passed in as
`now` (seconds since the epoch). -/
def calculate_uptime (now : ℤ) (timestamp_str : String) : String :=
  if timestamp_str = "" || timestamp_str = "n/a" then "N/A"
  else
    match searchTS timestamp_str.data with
    | none => "N/A"
    | some (y, mo, d, h, mi, s) =>
      if strptimeValid y mo d h mi s then uptime_bucket (now - epochSeconds y mo d h mi s)
      else "N/A"

/-! ### `SystemdDashboard._parse_memory_value` (src/dashboard.py:416-426) -/

/-- The `_parse_memory_value` over the character list of its argument.
`value.endswith('T')` is the test that the last character is `'T'`, and
`value[:-1]` is `dropLast`. -/
def parseMemChars (l : List Char) : Option ℚ :=
  if l.getLast? = some 'T' then
    (parseFloatChars l.dropLast).map (fun q => q * 1024 * 1024 * 1024)
  else if l.getLast? = some 'G' then
    (parseFloatChars l.dropLast).map (fun q => q * 1024 * 1024)
  else if l.getLast? = some 'M' then
    (parseFloatChars l.dropLast).map (fun q => q * 1024)
  else if l.getLast? = some 'K' then
    parseFloatChars l.dropLast
  else
    (parseFloatChars l).map (fun q => q / 1024)

/-- The `SystemdDashboard._parse_memory_value`; the `ValueError` that
`float(...)` raises on a malformed numeral is the `none` outcome. -/
def parse_memory_value (value : String) : Option ℚ :=
  parseMemChars value.data

/-! ### The subprocess model -/

/-- Outcome of one `subprocess.run(..., capture_output=True, text=True,
timeout=...)` call: a completed process with its exit code and captured
streams, a `TimeoutExpired`, or any other raised exception. -/
inductive ProcOutcome where
  | ok (returncode : ℤ) (stdout stderr : String)
  | timeout
  | err (msg : String)
deriving DecidableEq, Repr

/-- The `timeout=5` of each status sub-query (src/dashboard.py:83,90,102). -/
def status_query_timeout : ℕ := 5

/-- The `timeout=10` of the control action (src/dashboard.py:213). -/
def control_action_timeout : ℕ := 10

/-! ### `SystemdDashboard.get_service_status` (src/dashboard.py:77-164) -/

/-- The record built by `get_service_status`. -/
structure ServiceInfo where
  name : String
  status : String
  active : Bool
  state : String
  memory : String
  uptime : String
  main_pid : String
  load_state : String
  unit_file_state : String
deriving DecidableEq, Repr

/-- The record returned when a sub-query raises `TimeoutExpired`
(src/dashboard.py:141-152). -/
def timeoutRecord (name : String) : ServiceInfo :=
  { name := name, status := "Timeout", active := false, state := "unknown",
    memory := "N/A", uptime := "N/A", main_pid := "N/A",
    load_state := "N/A", unit_file_state := "N/A" }

/-- The record returned when a sub-query raises any other exception
(src/dashboard.py:153-164). -/
def errorRecord (name msg : String) : ServiceInfo :=
  { name := name, status := "Error: " ++ msg, active := false, state := "error",
    memory := "N/A", uptime := "N/A", main_pid := "N/A",
    load_state := "N/A", unit_file_state := "N/A" }

/-- One iteration of the property loop at src/dashboard.py:118-138:
split the line on the first `=` and update the matching field. -/
def applyShowLine (now : ℤ) (info : ServiceInfo) (line : String) : ServiceInfo :=
  match pySplitFirst '=' line with
  | none => info
  | some (key, value) =>
    if key = "MemoryCurrent" ∧ value ≠ "[not set]" ∧ isDigitStr value = true then
      (if 0 < natOfDigits value.data then
        { info with memory := format_bytes (natOfDigits value.data : ℚ) }
      else info)
    else if key = "MainPID" ∧ value ≠ "0" then
      { info with main_pid := value }
    else if key = "ActiveEnterTimestamp" ∧ value ≠ "" then
      { info with uptime := calculate_uptime now value }
    else if key = "LoadState" then
      { info with load_state := value }
    else if key = "UnitFileState" then
      { info with unit_file_state := value }
    else info

/-- The `SystemdDashboard.get_service_status`.  The three sub-queries run in
order (`status`, `is-active`, `show`); an exception from any of them
aborts the rest, so the outcomes of the three calls are inputs and the
first non-`ok` one decides the record. -/
def get_service_status (now : ℤ) (name : String)
    (statusR activeR showR : ProcOutcome) : ServiceInfo :=
  match statusR with
  | .timeout => timeoutRecord name
  | .err e => errorRecord name e
  | .ok _ statusOut _ =>
    match activeR with
    | .timeout => timeoutRecord name
    | .err e => errorRecord name e
    | .ok _ activeOut _ =>
      match showR with
      | .timeout => timeoutRecord name
      | .err e => errorRecord name e
      | .ok showRc showOut _ =>
        let base : ServiceInfo :=
          { name := name, status := statusOut,
            active := pyStrip activeOut == "active", state := pyStrip activeOut,
            memory := "N/A", uptime := "N/A", main_pid := "N/A",
            load_state := "N/A", unit_file_state := "N/A" }
        if showRc = 0 then (splitLines (pyStrip showOut)).foldl (applyShowLine now) base
        else base

/-! ### `SystemdDashboard.control_service` (src/dashboard.py:207-222) and
its handler `_handle_control_service` (src/dashboard.py:617-624) -/

/-- The payload of `control_service`. -/
structure ControlResult where
  success : Bool
  message : String
deriving DecidableEq, Repr

/-- The `SystemdDashboard.control_service`. -/
def control_service (service_name action : String) (r : ProcOutcome) : ControlResult :=
  match r with
  | .ok rc out errOut => { success := rc == 0, message := out ++ errOut }
  | .timeout => { success := false, message := "Operation timed out" }
  | .err e => { success := false, message := "Error: " ++ e }

/-- An HTTP handler's reply: a JSON body or an error status. -/
inductive ApiResponse (α : Type) where
  | json (body : α)
  | httpError (code : ℕ) (msg : String)
deriving DecidableEq, Repr

/-- The `_handle_control_service`: `data.get("action")` is `action?`; a value
outside `["start", "stop", "restart"]` (including a missing one) is
rejected with 400 before `control_service` is called. -/
def handle_control_service (service_name : String) (action? : Option String)
    (r : ProcOutcome) : ApiResponse ControlResult :=
  match action? with
  | some a =>
    if a = "start" ∨ a = "stop" ∨ a = "restart" then
      .json (control_service service_name a r)
    else .httpError 400 "Invalid action"
  | none => .httpError 400 "Invalid action"

/-! ### `SystemdDashboard.get_disk_usage` (src/dashboard.py:289-339) -/

/-- One row of the disk-usage result. -/
structure DiskEntry where
  filesystem : String
  size : String
  used : String
  available : String
  use_percent : String
  use_percent_num : ℕ
  mounted_on : String
deriving DecidableEq, Repr

/-- Result of `get_disk_usage`: the `{"disks": [...]}` payload or an
`{"error": ...}` payload. -/
inductive DiskResult where
  | disks (l : List DiskEntry)
  | err (msg : String)
deriving DecidableEq, Repr

/-- One iteration of the row loop at src/dashboard.py:304-331: rows with
fewer than 6 whitespace-separated columns are skipped, the percent column
is `rstrip("%")`-ed, a non-digit percent defaults to 0, and the mount
point is rebuilt by rejoining the remaining columns. -/
def parseDiskRow (line : String) : Option DiskEntry :=
  let parts := pySplitWS line
  if 6 ≤ parts.length then
    let up := rstripPercent (parts.getD 4 "")
    some { filesystem := parts.getD 0 "", size := parts.getD 1 "",
           used := parts.getD 2 "", available := parts.getD 3 "",
           use_percent := up,
           use_percent_num := if isDigitStr up then natOfDigits up.data else 0,
           mounted_on := pyJoin " " (parts.drop 5) }
  else none

/-- The `SystemdDashboard.get_disk_usage`.  `list.sort(key=..., reverse=True)`
is a stable sort descending on `use_percent_num`. -/
def get_disk_usage (r : ProcOutcome) : DiskResult :=
  match r with
  | .timeout => .err "Disk usage check timed out"
  | .err e => .err ("Error getting disk usage: " ++ e)
  | .ok rc out _ =>
    if rc ≠ 0 then .err "Failed to get disk usage"
    else
      let lines := splitLines (pyStrip out)
      if lines.length < 2 then .err "Invalid df output"
      else
        .disks (List.insertionSort (fun a b => b.use_percent_num ≤ a.use_percent_num)
          ((lines.drop 1).filterMap parseDiskRow))

/-! ### `SystemdDashboard.get_ram_usage` (src/dashboard.py:341-414) -/

/-- The five-field RAM payload. -/
structure RamInfo where
  total : String
  used : String
  free : String
  available : String
  use_percent : ℤ
deriving DecidableEq, Repr

/-- Result of `get_ram_usage`. -/
inductive RamResult where
  | ok (r : RamInfo)
  | err (msg : String)
deriving DecidableEq, Repr

/-- Python `int(x)` applied to a float: truncation toward zero. -/
def pyIntTrunc (q : ℚ) : ℤ := Int.tdiv q.num q.den

/-- The primary tier of `get_ram_usage` (src/dashboard.py:343-369): parse
`free -h` output; `none` when the command failed, timed out, was absent,
or its output lacks the expected line/column counts, in which case the
caller falls through to the `/proc/meminfo` tier. -/
def ram_primary (freeR : ProcOutcome) : Option RamInfo :=
  match freeR with
  | .ok rc out _ =>
    if rc = 0 then
      match (splitLines (pyStrip out)).get? 1 with
      | some memLine =>
        let cols := pySplitWS memLine
        if 7 ≤ cols.length then
          let total := cols.getD 1 ""
          let used := cols.getD 2 ""
          let fr := cols.getD 3 ""
          let avail := cols.getD 6 ""
          let use_percent : ℤ :=
            match parse_memory_value total, parse_memory_value used with
            | some tk, some uk => if 0 < tk then pyIntTrunc (uk / tk * 100) else 0
            | _, _ => 0
          some { total := total, used := used, free := fr, available := avail,
                 use_percent := use_percent }
        else none
      | none => none
    else none
  | _ => none

/-- The dictionary built from the `/proc/meminfo` text
(src/dashboard.py:379-386): split each line on the first colon, take the
first whitespace token of the value when it is all digits, multiply by
1024; later assignments to the same key overwrite earlier ones. -/
def parse_meminfo (content : String) : String → Option ℕ :=
  (splitLines content).foldl
    (fun d line =>
      match pySplitFirst ':' line with
      | none => d
      | some (k, v) =>
        match pySplitWS v with
        | [] => d
        | t :: _ =>
          if isDigitStr t then
            (fun key => if key = pyStrip k then some (natOfDigits t.data * 1024) else d key)
          else d)
    (fun _ => none)

/-- The body of the fallback tier once the `/proc/meminfo` text has been
read (src/dashboard.py:388-407): `MemTotal` is required, `MemAvailable`
is preferred over `MemFree`, `used = total - available`, all four counts
go through `_format_bytes`, and the percentage is `int((used/total)*100)`
guarded by `total > 0`. -/
def ram_from_meminfo (content : String) : RamResult :=
  match parse_meminfo content "MemTotal" with
  | none => .err "Unable to determine RAM usage"
  | some total =>
    .ok { total := format_bytes (total : ℚ),
          used := format_bytes ((((total : ℤ) -
            ((parse_meminfo content "MemAvailable").getD
              ((parse_meminfo content "MemFree").getD 0) : ℤ) : ℤ) : ℚ)),
          free := format_bytes (((parse_meminfo content "MemFree").getD 0 : ℕ) : ℚ),
          available := format_bytes (((parse_meminfo content "MemAvailable").getD
            ((parse_meminfo content "MemFree").getD 0) : ℕ) : ℚ),
          use_percent :=
            if 0 < total then
              pyIntTrunc (((((total : ℤ) -
                ((parse_meminfo content "MemAvailable").getD
                  ((parse_meminfo content "MemFree").getD 0) : ℤ) : ℤ) : ℚ)) /
                ((total : ℕ) : ℚ) * 100)
            else 0 }

/-- The fallback tier of `get_ram_usage` (src/dashboard.py:374-414):
read `/proc/meminfo` (an `IOError`/`OSError` becomes the error payload),
then process its text. -/
def ram_fallback (meminfo : Except String String) : RamResult :=
  match meminfo with
  | .error e => .err ("Error reading memory info: " ++ e)
  | .ok content => ram_from_meminfo content

/-- The `SystemdDashboard.get_ram_usage`: primary tier, else the
`/proc/meminfo` fallback (`meminfo` is the outcome of reading the file). -/
def get_ram_usage (freeR : ProcOutcome) (meminfo : Except String String) : RamResult :=
  match ram_primary freeR with
  | some info => .ok info
  | none => ram_fallback meminfo

/-! ### The durable store: tracked services and toggles
(src/dashboard.py:17-75, 248-270).  The two sqlite tables are modelled as
lists in row order; the `UNIQUE` constraints are realised by the
operations (`INSERT` failing with `IntegrityError` on a duplicate name,
`INSERT OR REPLACE` replacing the row with the same key). -/

/-- The durable store: `tracked_services` rows and `service_toggles`
rows, keyed by `(service_name, toggle_type)`. -/
structure Db where
  tracked : List String
  toggles : List ((String × String) × Bool)
deriving DecidableEq, Repr

/-- The `SystemdDashboard.add_service`: the `UNIQUE` column makes the insert
raise `IntegrityError` on a duplicate, returning `False`. -/
def add_service (db : Db) (service_name : String) : Db × Bool :=
  if service_name ∈ db.tracked then (db, false)
  else ({ db with tracked := db.tracked ++ [service_name] }, true)

/-- The `SystemdDashboard.remove_service`: `DELETE ... WHERE service_name = ?`,
unconditionally successful. -/
def remove_service (db : Db) (service_name : String) : Db :=
  { db with tracked := db.tracked.filter (fun n => decide (n ≠ service_name)) }

/-- The `SystemdDashboard.get_tracked_services`:
`SELECT service_name ... ORDER BY service_name` (ascending). -/
def get_tracked_services (db : Db) : List String :=
  List.insertionSort (fun a b => a ≤ b) db.tracked

/-- The `SystemdDashboard.get_toggle_state`: select the row with the given
key, defaulting to `False` when there is none. -/
def get_toggle_state (db : Db) (service_name toggle_type : String) : Bool :=
  match db.toggles.find? (fun e => decide (e.1 = (service_name, toggle_type))) with
  | some e => e.2
  | none => false

/-- The `SystemdDashboard.set_toggle_state`: `INSERT OR REPLACE` on the
`(service_name, toggle_type)` key. -/
def set_toggle_state (db : Db) (service_name toggle_type : String)
    (is_expanded : Bool) : Db :=
  { db with toggles :=
      db.toggles.filter (fun e => decide (e.1 ≠ (service_name, toggle_type))) ++
        [((service_name, toggle_type), is_expanded)] }

/-- The store states reachable from the freshly created database through
the registry and toggle operations. -/
inductive DbReachable : Db → Prop where
  | init : DbReachable ⟨[], []⟩
  | add (db : Db) (n : String) : DbReachable db → DbReachable (add_service db n).1
  | remove (db : Db) (n : String) : DbReachable db → DbReachable (remove_service db n)
  | toggle (db : Db) (s p : String) (b : Bool) :
      DbReachable db → DbReachable (set_toggle_state db s p b)

/-! ### Specification-side definitions, written from the spec's words, to
be compared with the embedded code -/

/-- The uptime bucketing exactly as the specification words it:
`<60s → "{s}s"`, `<3600s → "{m}m"`, `<86400s → "{h}h {m}m"`, otherwise
`"{d}d {h}h"`, with floor-divided quotients and remainders. -/
def specUptime (s : ℕ) : String :=
  if s < 60 then toString s ++ "s"
  else if s < 3600 then toString (s / 60) ++ "m"
  else if s < 86400 then toString (s / 3600) ++ "h " ++ toString (s % 3600 / 60) ++ "m"
  else toString (s / 86400) ++ "d " ++ toString (s % 86400 / 3600) ++ "h"

/-- The unit the specification assigns to a byte count: `B` below `1024`,
`KB` below `1024²`, `MB` below `1024³`, `GB` below `1024⁴`, `TB` above. -/
def specUnit (b : ℕ) : String :=
  if b < 1024 then "B"
  else if b < 1024 ^ 2 then "KB"
  else if b < 1024 ^ 3 then "MB"
  else if b < 1024 ^ 4 then "GB"
  else "TB"

/-- The spec's "available is preferred over free when present" for the
kernel memory-info fallback. -/
def meminfoAvail (content : String) : ℕ :=
  (parse_meminfo content "MemAvailable").getD ((parse_meminfo content "MemFree").getD 0)

/-- The free-memory count of the kernel memory-info fallback. -/
def meminfoFree (content : String) : ℕ :=
  (parse_meminfo content "MemFree").getD 0

/-- How many times the specification divides the byte count by 1024
before rendering (once per unit step). -/
def specUnitIndex (b : ℕ) : ℕ :=
  if b < 1024 then 0
  else if b < 1024 ^ 2 then 1
  else if b < 1024 ^ 3 then 2
  else if b < 1024 ^ 4 then 3
  else 4

/-! ## Helper lemmas -/

theorem toString_int_toNat (z : ℤ) (hz : 0 ≤ z) : toString z = toString z.toNat := by
  cases z with
  | ofNat n => rfl
  | negSucc n => exact absurd hz (not_le.mpr (Int.negSucc_lt_zero n))

theorem uptime_bucket_eq_spec (s : ℕ) : uptime_bucket (s : ℤ) = specUptime s := by
  unfold uptime_bucket specUptime
  by_cases h1 : s < 60
  · rw [if_pos (show (s : ℤ) < 60 from by exact_mod_cast h1), if_pos h1]
    rfl
  · rw [if_neg (show ¬ (s : ℤ) < 60 from by exact_mod_cast h1), if_neg h1]
    by_cases h2 : s < 3600
    · rw [if_pos (show (s : ℤ) < 3600 from by exact_mod_cast h2), if_pos h2,
        show (s : ℤ) / 60 = ((s / 60 : ℕ) : ℤ) from by omega]
      rfl
    · rw [if_neg (show ¬ (s : ℤ) < 3600 from by exact_mod_cast h2), if_neg h2]
      by_cases h3 : s < 86400
      · rw [if_pos (show (s : ℤ) < 86400 from by exact_mod_cast h3), if_pos h3,
          show (s : ℤ) / 3600 = ((s / 3600 : ℕ) : ℤ) from by omega,
          show (s : ℤ) % 3600 / 60 = ((s % 3600 / 60 : ℕ) : ℤ) from by omega]
        rfl
      · rw [if_neg (show ¬ (s : ℤ) < 86400 from by exact_mod_cast h3), if_neg h3,
          show (s : ℤ) / 86400 = ((s / 86400 : ℕ) : ℤ) from by omega,
          show (s : ℤ) % 86400 / 3600 = ((s % 86400 / 3600 : ℕ) : ℤ) from by omega]
        rfl

/-! ## Claims -/

/-- Claim C2: the uptime formatter buckets elapsed seconds exactly as the
spec states — `s < 60` gives `"{s}s"`, `60 ≤ s < 3600` gives `"{m}m"`
with `m = ⌊s/60⌋`, `3600 ≤ s < 86400` gives `"{h}h {m}m"` with remainder
minutes, `s ≥ 86400` gives `"{d}d {h}h"` with remainder hours; in
particular 3725 s renders as `"1h 2m"`, 45 s as `"45s"` and 90000 s as
`"1d 1h"`. -/
theorem claim_uptime_formatter :
    (∀ s : ℕ, uptime_bucket (s : ℤ) = specUptime s) ∧
    uptime_bucket 3725 = "1h 2m" ∧ uptime_bucket 45 = "45s" ∧
    uptime_bucket 90000 = "1d 1h" :=
  ⟨uptime_bucket_eq_spec, by decide, by decide, by decide⟩

theorem parseFloatChars_getLast_isDigit {l : List Char}
    (h : (parseFloatChars l).isSome = true) :
    ∃ c, l.getLast? = some c ∧ c.isDigit = true := by
  unfold parseFloatChars at h
  split at h
  next heq =>
    split at h
    · simp at h
    next hne =>
      have hl : l.takeWhile Char.isDigit = l := by
        have hsp := List.takeWhile_append_dropWhile Char.isDigit l
        rw [heq, List.append_nil] at hsp
        exact hsp
      have hlne : l ≠ [] := by
        intro e
        apply hne
        rw [hl, e]
        rfl
      obtain ⟨c, hc⟩ := Option.isSome_iff_exists.mp (List.getLast?_isSome.mpr hlne)
      refine ⟨c, hc, ?_⟩
      obtain ⟨hne', he⟩ := List.mem_getLast?_eq_getLast (show c ∈ l.getLast? from hc)
      have hmem : c ∈ l := he ▸ List.getLast_mem hne'
      rw [← hl] at hmem
      exact List.mem_takeWhile_imp hmem
  next c fp heq =>
    split at h
    next hx =>
      split at h
      · simp at h
      next hcond =>
        have hfp : fp.isEmpty = false := by
          cases hE : fp.isEmpty
          · rfl
          · exact absurd (by rw [hE]; simp) hcond
        have hall : fp.all Char.isDigit = true := by
          cases hE : fp.all Char.isDigit
          · exact absurd (by rw [hE]; simp) hcond
          · rfl
        have hl : l = l.takeWhile Char.isDigit ++ c :: fp := by
          rw [← heq, List.takeWhile_append_dropWhile]
        have hfpne : fp ≠ [] := by
          intro e
          rw [e] at hfp
          exact absurd hfp (by decide)
        obtain ⟨d, hd⟩ := Option.isSome_iff_exists.mp (List.getLast?_isSome.mpr hfpne)
        have h1 : (c :: fp).getLast? = some d := by
          cases fp with
          | nil => exact absurd rfl hfpne
          | cons f ft => rw [List.getLast?_cons_cons]; exact hd
        refine ⟨d, ?_, ?_⟩
        · rw [hl, List.getLast?_append, h1]
          rfl
        · obtain ⟨hne', he⟩ := List.mem_getLast?_eq_getLast (show d ∈ fp.getLast? from hd)
          have hmem : d ∈ fp := he ▸ List.getLast_mem hne'
          exact List.all_eq_true.mp hall d hmem
    next hx => simp at h

theorem parseMemChars_concat_T (l : List Char) :
    parseMemChars (l ++ ['T']) =
      (parseFloatChars l).map (fun q => q * 1024 * 1024 * 1024) := by
  unfold parseMemChars
  rw [List.getLast?_concat, List.dropLast_concat, if_pos rfl]

theorem parseMemChars_concat_G (l : List Char) :
    parseMemChars (l ++ ['G']) = (parseFloatChars l).map (fun q => q * 1024 * 1024) := by
  unfold parseMemChars
  rw [List.getLast?_concat, List.dropLast_concat, if_neg (by decide), if_pos rfl]

theorem parseMemChars_concat_M (l : List Char) :
    parseMemChars (l ++ ['M']) = (parseFloatChars l).map (fun q => q * 1024) := by
  unfold parseMemChars
  rw [List.getLast?_concat, List.dropLast_concat, if_neg (by decide),
    if_neg (by decide), if_pos rfl]

theorem parseMemChars_concat_K (l : List Char) :
    parseMemChars (l ++ ['K']) = parseFloatChars l := by
  unfold parseMemChars
  rw [List.getLast?_concat, List.dropLast_concat, if_neg (by decide),
    if_neg (by decide), if_neg (by decide), if_pos rfl]

theorem parseMemChars_bare {l : List Char} (h : (parseFloatChars l).isSome = true) :
    parseMemChars l = (parseFloatChars l).map (fun q => q / 1024) := by
  obtain ⟨c, hc, hcd⟩ := parseFloatChars_getLast_isDigit h
  have hnd : ∀ ch : Char, ch.isDigit = false → ¬ (l.getLast? = some ch) := by
    intro ch hch he
    rw [hc, Option.some.injEq] at he
    rw [← he, hcd] at hch
    exact absurd hch (by decide)
  unfold parseMemChars
  rw [if_neg (hnd 'T' (by decide)), if_neg (hnd 'G' (by decide)),
    if_neg (hnd 'M' (by decide)), if_neg (hnd 'K' (by decide))]

/-- Claim C3: `_parse_memory_value` scales a `T`/`G`/`M`/`K`-suffixed value
to the common K unit by multiplying the numeric prefix by `1024³`,
`1024²`, `1024` and `1` respectively, divides a bare value by 1024 —
`"2G" ↦ 2·1024²`, `"512M" ↦ 512·1024`, `"1024" ↦ 1` — and does not raise
in any of the four suffix cases or the bare-number case whenever the
numeric part is a well-formed numeral (`float(...)` succeeds). -/
theorem claim_parse_memory_value :
    parse_memory_value "2G" = some (2 * 1024 ^ 2) ∧
    parse_memory_value "512M" = some (512 * 1024) ∧
    parse_memory_value "1024" = some 1 ∧
    ∀ x : String, (pyFloat x).isSome = true →
      (parse_memory_value (x ++ "T")).isSome = true ∧
      (parse_memory_value (x ++ "G")).isSome = true ∧
      (parse_memory_value (x ++ "M")).isSome = true ∧
      (parse_memory_value (x ++ "K")).isSome = true ∧
      (parse_memory_value x).isSome = true := by
  refine ⟨?_, ?_, ?_, ?_⟩
  · have h : parse_memory_value "2G" = some ((natOfDigits ['2'] : ℚ) * 1024 * 1024) := rfl
    rw [h, Option.some.injEq, show natOfDigits ['2'] = 2 from rfl]
    norm_num
  · have h : parse_memory_value "512M" =
        some ((natOfDigits ['5', '1', '2'] : ℚ) * 1024) := rfl
    rw [h, Option.some.injEq, show natOfDigits ['5', '1', '2'] = 512 from rfl]
    norm_num
  · have h : parse_memory_value "1024" =
        some ((natOfDigits ['1', '0', '2', '4'] : ℚ) / 1024) := rfl
    rw [h, Option.some.injEq, show natOfDigits ['1', '0', '2', '4'] = 1024 from rfl]
    norm_num
  · intro x hx
    obtain ⟨q, hq⟩ := Option.isSome_iff_exists.mp hx
    have hq' : parseFloatChars x.data = some q := hq
    refine ⟨?_, ?_, ?_, ?_, ?_⟩
    · show (parseMemChars (x ++ "T").data).isSome = true
      rw [String.data_append, show ("T" : String).data = ['T'] from rfl,
        parseMemChars_concat_T, hq']
      rfl
    · show (parseMemChars (x ++ "G").data).isSome = true
      rw [String.data_append, show ("G" : String).data = ['G'] from rfl,
        parseMemChars_concat_G, hq']
      rfl
    · show (parseMemChars (x ++ "M").data).isSome = true
      rw [String.data_append, show ("M" : String).data = ['M'] from rfl,
        parseMemChars_concat_M, hq']
      rfl
    · show (parseMemChars (x ++ "K").data).isSome = true
      rw [String.data_append, show ("K" : String).data = ['K'] from rfl,
        parseMemChars_concat_K, hq']
      rfl
    · show (parseMemChars x.data).isSome = true
      rw [parseMemChars_bare (show (parseFloatChars x.data).isSome = true from by
        rw [hq']; rfl), hq']
      rfl

/-- Witness for **C3**: the non-raising clause instantiated at the
numeral `"3"` and the `T` suffix. -/
theorem claim_parse_memory_value_witness :
    (pyFloat "3").isSome = true ∧ (parse_memory_value ("3" ++ "T")).isSome = true :=
  ⟨by decide, (claim_parse_memory_value.2.2.2 "3" (by decide)).1⟩

/-- Claim C7: a control action outside `{start, stop, restart}` (or a
missing one) is rejected as a 400 validation error before any execution
is attempted; for an allowed action the result has `success` true exactly
when the exit code is zero, `message` the concatenation of captured
stdout and stderr, and a timeout yields `success := false` with message
`"Operation timed out"`. -/
theorem claim_control_service :
    (∀ name a r, a ≠ "start" → a ≠ "stop" → a ≠ "restart" →
      handle_control_service name (some a) r = .httpError 400 "Invalid action") ∧
    (∀ name r, handle_control_service name none r = .httpError 400 "Invalid action") ∧
    (∀ name a r, (a = "start" ∨ a = "stop" ∨ a = "restart") →
      handle_control_service name (some a) r = .json (control_service name a r)) ∧
    (∀ name a rc out errOut,
      control_service name a (.ok rc out errOut) =
        { success := rc == 0, message := out ++ errOut }) ∧
    (∀ name a rc out errOut,
      ((control_service name a (.ok rc out errOut)).success = true ↔ rc = 0)) ∧
    (∀ name a, control_service name a .timeout =
      { success := false, message := "Operation timed out" }) ∧
    control_action_timeout = 10 := by
  refine ⟨?_, ?_, ?_, ?_, ?_, ?_, rfl⟩
  · intro name a r h1 h2 h3
    show (if a = "start" ∨ a = "stop" ∨ a = "restart"
        then ApiResponse.json (control_service name a r)
        else ApiResponse.httpError 400 "Invalid action") =
      ApiResponse.httpError 400 "Invalid action"
    rw [if_neg]
    rintro (e | e | e) <;> [exact h1 e; exact h2 e; exact h3 e]
  · intro name r
    rfl
  · intro name a r h
    show (if a = "start" ∨ a = "stop" ∨ a = "restart"
        then ApiResponse.json (control_service name a r)
        else ApiResponse.httpError 400 "Invalid action") =
      ApiResponse.json (control_service name a r)
    rw [if_pos h]
  · intro name a rc out errOut
    rfl
  · intro name a rc out errOut
    show (rc == 0) = true ↔ rc = 0
    exact beq_iff_eq
  · intro name a
    rfl

/-- Witness for **C7**: the invalid action `"reload"` is rejected with a
400, and a successful `"start"` run with exit code 0 succeeds. -/
theorem claim_control_service_witness :
    handle_control_service "nginx" (some "reload") .timeout =
        .httpError 400 "Invalid action" ∧
    handle_control_service "nginx" (some "start") (.ok 0 "ok" "") =
        .json (control_service "nginx" "start" (.ok 0 "ok" "")) :=
  ⟨claim_control_service.1 "nginx" "reload" .timeout (by decide) (by decide) (by decide),
   claim_control_service.2.2.1 "nginx" "start" (.ok 0 "ok" "") (Or.inl rfl)⟩

/-- Claim C8: adding a not-yet-tracked service succeeds and adding it a
second time fails (name uniqueness), while removing a non-tracked
service is a no-op that leaves the store unchanged and raises nothing. -/
theorem claim_add_remove_service (db : Db) (name : String) (h : name ∉ db.tracked) :
    (add_service db name).2 = true ∧
    (add_service (add_service db name).1 name).2 = false ∧
    remove_service db name = db := by
  refine ⟨?_, ?_, ?_⟩
  · unfold add_service
    rw [if_neg h]
  · unfold add_service
    rw [if_neg h]
    simp
  · unfold remove_service
    have : db.tracked.filter (fun n => decide (n ≠ name)) = db.tracked := by
      rw [List.filter_eq_self]
      intro a ha
      simp only [decide_eq_true_eq]
      intro e
      exact h (e ▸ ha)
    rw [this]

/-- Witness for **C8**: the fresh store and the service name `"a"`. -/
theorem claim_add_remove_service_witness :
    ("a" ∉ (⟨[], []⟩ : Db).tracked) ∧
    (add_service ⟨[], []⟩ "a").2 = true ∧
    (add_service (add_service ⟨[], []⟩ "a").1 "a").2 = false ∧
    remove_service ⟨[], []⟩ "a" = ⟨[], []⟩ :=
  ⟨by simp, claim_add_remove_service ⟨[], []⟩ "a" (by simp)⟩

theorem get_set_toggle_same (db : Db) (svc pt : String) (v : Bool) :
    get_toggle_state (set_toggle_state db svc pt v) svc pt = v := by
  unfold get_toggle_state set_toggle_state
  rw [List.find?_append]
  have h1 : List.find? (fun e => decide (e.1 = (svc, pt)))
      (List.filter (fun e => decide (e.1 ≠ (svc, pt))) db.toggles) = none := by
    rw [List.find?_eq_none]
    intro e he
    have := List.of_mem_filter he
    simp only [decide_eq_true_eq] at this ⊢
    exact this
  have h2 : List.find? (fun e => decide (e.1 = (svc, pt))) [((svc, pt), v)] =
      some ((svc, pt), v) :=
    List.find?_cons_of_pos _ (by simp)
  rw [h1, h2]
  rfl

theorem find?_filter_of_imp {α : Type} (l : List α) (p q : α → Bool)
    (h : ∀ e, p e = true → q e = true) : (l.filter q).find? p = l.find? p := by
  induction l with
  | nil => rfl
  | cons e t ih =>
    by_cases hq : q e = true
    · rw [List.filter_cons_of_pos hq]
      by_cases hp : p e = true
      · rw [List.find?_cons_of_pos _ hp, List.find?_cons_of_pos _ hp]
      · rw [List.find?_cons_of_neg _ (by simpa using hp),
          List.find?_cons_of_neg _ (by simpa using hp)]
        exact ih
    · have hp : ¬ p e = true := fun hpe => hq (h e hpe)
      rw [List.filter_cons_of_neg (by simpa using hq),
        List.find?_cons_of_neg _ (by simpa using hp)]
      exact ih

theorem get_set_toggle_other (db : Db) (svc pt : String) (v : Bool)
    (s p : String) (h : (s, p) ≠ (svc, pt)) :
    get_toggle_state (set_toggle_state db svc pt v) s p = get_toggle_state db s p := by
  unfold get_toggle_state set_toggle_state
  rw [List.find?_append]
  have h2 : List.find? (fun e => decide (e.1 = (s, p)))
      [((svc, pt), v)] = none := by
    rw [List.find?_eq_none]
    intro e he
    simp only [List.mem_singleton] at he
    subst he
    simp only [decide_eq_true_eq]
    intro e
    exact h (e ▸ rfl)
  rw [h2, find?_filter_of_imp _ _ _ ?imp]
  · cases db.toggles.find? (fun e => decide (e.1 = (s, p))) <;> rfl
  case imp =>
    intro e hpe
    simp only [decide_eq_true_eq] at hpe ⊢
    intro hcontra
    exact h (by rw [← hpe, hcontra])

/-- Claim C9: toggle states for distinct `(service, panel)` keys are stored
independently — setting `(svc, "logs")` then `(svc, "journal")` leaves
both readable, and re-setting `(svc, "logs")` changes only that row,
every other `(service, panel)` row reading unchanged. -/
theorem claim_toggle_state (db : Db) (svc : String) (v1 v2 v1' : Bool) :
    get_toggle_state (set_toggle_state (set_toggle_state db svc "logs" v1)
        svc "journal" v2) svc "logs" = v1 ∧
    get_toggle_state (set_toggle_state (set_toggle_state db svc "logs" v1)
        svc "journal" v2) svc "journal" = v2 ∧
    get_toggle_state (set_toggle_state (set_toggle_state (set_toggle_state db
        svc "logs" v1) svc "journal" v2) svc "logs" v1') svc "logs" = v1' ∧
    ∀ s p : String, (s, p) ≠ (svc, "logs") →
      get_toggle_state (set_toggle_state (set_toggle_state (set_toggle_state db
          svc "logs" v1) svc "journal" v2) svc "logs" v1') s p =
      get_toggle_state (set_toggle_state (set_toggle_state db svc "logs" v1)
          svc "journal" v2) s p := by
  refine ⟨?_, ?_, ?_, ?_⟩
  · rw [get_set_toggle_other _ _ _ _ _ _ (by simp), get_set_toggle_same]
  · exact get_set_toggle_same _ _ _ _
  · exact get_set_toggle_same _ _ _ _
  · intro s p h
    exact get_set_toggle_other _ _ _ _ _ _ h

/-- Witness for **C9**: concrete keys; the frame clause instantiated at
the untouched `("s", "journal")` row. -/
theorem claim_toggle_state_witness :
    (("s", "journal") ≠ ("s", "logs")) ∧
    get_toggle_state (set_toggle_state (set_toggle_state (set_toggle_state
        ⟨[], []⟩ "s" "logs" true) "s" "journal" false) "s" "logs" false)
        "s" "journal" =
      get_toggle_state (set_toggle_state (set_toggle_state ⟨[], []⟩ "s" "logs"
        true) "s" "journal" false) "s" "journal" :=
  ⟨by decide, (claim_toggle_state ⟨[], []⟩ "s" true false false).2.2.2
    "s" "journal" (by decide)⟩

theorem reachable_nodup {db : Db} (h : DbReachable db) : db.tracked.Nodup := by
  induction h with
  | init => simp
  | add db n _ ih =>
    unfold add_service
    by_cases hm : n ∈ db.tracked
    · rw [if_pos hm]
      exact ih
    · rw [if_neg hm]
      simp only [List.nodup_append, List.nodup_singleton, true_and]
      exact ⟨ih, fun a ha hb => hm ((List.mem_singleton.mp hb) ▸ ha)⟩
  | remove db n _ ih => exact List.Nodup.filter _ ih
  | toggle db s p b _ ih => exact ih

/-- Claim C10 (implicit): for every reachable registry state,
`get_tracked_services` returns the tracked names in ascending
lexicographic order with no duplicates, whatever the insertion order
was. -/
theorem claim_tracked_services_sorted (db : Db) (h : DbReachable db) :
    List.Sorted (fun a b : String => a ≤ b) (get_tracked_services db) ∧
    (get_tracked_services db).Nodup := by
  constructor
  · exact List.sorted_insertionSort _ _
  · exact ((List.perm_insertionSort _ _).nodup_iff).mpr (reachable_nodup h)

/-- Witness for **C10**: the state reached by adding `"b"` then `"a"`;
its listing is `["a", "b"]`, sorted and duplicate-free. -/
theorem claim_tracked_services_sorted_witness :
    List.Sorted (fun a b : String => a ≤ b)
      (get_tracked_services ⟨["b", "a"], []⟩) ∧
    (get_tracked_services ⟨["b", "a"], []⟩).Nodup :=
  claim_tracked_services_sorted ⟨["b", "a"], []⟩
    (DbReachable.add _ "a" (DbReachable.add _ "b" DbReachable.init))

/-- Claim C4: when a status sub-query times out (any of the three, each
bounded by the 5-unit timeout), `get_service_status` returns the degraded
record — `state = "unknown"`, `active = false`, `status = "Timeout"`,
`memory`/`uptime`/`main_pid` all `"N/A"` — and no exception escapes (the
embedding is a total function whose timeout branches are these records). -/
theorem claim_status_timeout (now : ℤ) (name : String) (r1 r2 r3 : ProcOutcome)
    (h : r1 = .timeout ∨
         ((∃ rc o e, r1 = .ok rc o e) ∧ r2 = .timeout) ∨
         ((∃ rc o e, r1 = .ok rc o e) ∧ (∃ rc o e, r2 = .ok rc o e) ∧ r3 = .timeout)) :
    get_service_status now name r1 r2 r3 = timeoutRecord name ∧
    (timeoutRecord name).state = "unknown" ∧
    (timeoutRecord name).active = false ∧
    (timeoutRecord name).status = "Timeout" ∧
    (timeoutRecord name).memory = "N/A" ∧
    (timeoutRecord name).uptime = "N/A" ∧
    (timeoutRecord name).main_pid = "N/A" ∧
    status_query_timeout = 5 := by
  refine ⟨?_, rfl, rfl, rfl, rfl, rfl, rfl, rfl⟩
  rcases h with rfl | ⟨⟨rc, o, e, rfl⟩, rfl⟩ | ⟨⟨rc, o, e, rfl⟩, ⟨rc2, o2, e2, rfl⟩, rfl⟩ <;> rfl

/-- Witness for **C4**: the first sub-query timing out. -/
theorem claim_status_timeout_witness :
    get_service_status 0 "svc" .timeout .timeout .timeout = timeoutRecord "svc" ∧
    (timeoutRecord "svc").state = "unknown" :=
  ⟨(claim_status_timeout 0 "svc" .timeout .timeout .timeout (Or.inl rfl)).1,
   (claim_status_timeout 0 "svc" .timeout .timeout .timeout (Or.inl rfl)).2.1⟩

theorem parseDiskRow_percent {line : String} {d : DiskEntry}
    (h : parseDiskRow line = some d) :
    d.use_percent_num =
      (if isDigitStr d.use_percent then natOfDigits d.use_percent.data else 0) := by
  simp only [parseDiskRow] at h
  split at h
  · rw [Option.some.injEq] at h
    subst h
    rfl
  · exact absurd h (by simp)

/-- Claim C6: whatever the df-style input, the disk-usage list is sorted by
`use_percent_num` in descending order, and every produced row's
`use_percent_num` is the parsed percent column when it is all digits and
0 otherwise — so malformed percent columns yield 0 without an exception. -/
theorem claim_disk_usage (r : ProcOutcome) (l : List DiskEntry)
    (h : get_disk_usage r = .disks l) :
    List.Sorted (fun a b : DiskEntry => b.use_percent_num ≤ a.use_percent_num) l ∧
    ∀ d ∈ l, d.use_percent_num =
      (if isDigitStr d.use_percent then natOfDigits d.use_percent.data else 0) := by
  cases r with
  | timeout => exact absurd h (by simp [get_disk_usage])
  | err e => exact absurd h (by simp [get_disk_usage])
  | ok rc out errOut =>
    simp only [get_disk_usage] at h
    split at h
    · exact absurd h (by simp)
    · split at h
      · exact absurd h (by simp)
      · rw [DiskResult.disks.injEq] at h
        subst h
        constructor
        · haveI ht : IsTotal DiskEntry
              (fun a b => b.use_percent_num ≤ a.use_percent_num) :=
            ⟨fun a b => le_total _ _⟩
          haveI htr : IsTrans DiskEntry
              (fun a b => b.use_percent_num ≤ a.use_percent_num) :=
            ⟨fun _ _ _ hab hbc => le_trans hbc hab⟩
          exact List.sorted_insertionSort _ _
        · intro d hd
          have hmem := ((List.perm_insertionSort _ _).mem_iff).mp hd
          rw [List.mem_filterMap] at hmem
          obtain ⟨line, _, hline⟩ := hmem
          exact parseDiskRow_percent hline

/-- Witness for **C6**: a two-row report whose second row has the
malformed percent column `"-"`; the result is sorted descending and the
malformed row got `use_percent_num = 0`. -/
theorem claim_disk_usage_witness :
    get_disk_usage (.ok 0
        "Filesystem Size Used Avail Use% Mounted on\n/dev/x 1G 1G 0G 50% /\ntmp 1G 0 1G - /t"
        "") =
      DiskResult.disks [⟨"/dev/x", "1G", "1G", "0G", "50", 50, "/"⟩,
        ⟨"tmp", "1G", "0", "1G", "-", 0, "/t"⟩] ∧
    (List.Sorted (fun a b : DiskEntry => b.use_percent_num ≤ a.use_percent_num)
        [⟨"/dev/x", "1G", "1G", "0G", "50", 50, "/"⟩,
         ⟨"tmp", "1G", "0", "1G", "-", 0, "/t"⟩] ∧
      ∀ d ∈ [(⟨"/dev/x", "1G", "1G", "0G", "50", 50, "/"⟩ : DiskEntry),
        ⟨"tmp", "1G", "0", "1G", "-", 0, "/t"⟩], d.use_percent_num =
        (if isDigitStr d.use_percent then natOfDigits d.use_percent.data else 0)) :=
  ⟨by decide, claim_disk_usage (.ok 0
      "Filesystem Size Used Avail Use% Mounted on\n/dev/x 1G 1G 0G 50% /\ntmp 1G 0 1G - /t"
      "")
    [⟨"/dev/x", "1G", "1G", "0G", "50", 50, "/"⟩,
     ⟨"tmp", "1G", "0", "1G", "-", 0, "/t"⟩] (by decide)⟩

theorem get_ram_usage_of_primary_none {freeR : ProcOutcome}
    (hp : ram_primary freeR = none) (meminfo : Except String String) :
    get_ram_usage freeR meminfo = ram_fallback meminfo := by
  unfold get_ram_usage
  rw [hp]

theorem pyIntTrunc_div_natCast (x y : ℕ) :
    pyIntTrunc ((x : ℚ) / (y : ℚ)) = ((x / y : ℕ) : ℤ) := by
  by_cases hy : y = 0
  · subst hy
    rw [Nat.cast_zero, div_zero, Nat.div_zero, Nat.cast_zero]
    rfl
  · have hq : (0 : ℚ) ≤ (x : ℚ) / (y : ℚ) := by positivity
    unfold pyIntTrunc
    rw [Int.tdiv_eq_ediv (Rat.num_nonneg.mpr hq) (by positivity), ← Rat.floor_def,
      Rat.floor_natCast_div_natCast]
    omega

theorem pyIntTrunc_pct (u t : ℕ) :
    pyIntTrunc ((u : ℚ) / (t : ℚ) * 100) = ((100 * u / t : ℕ) : ℤ) := by
  rw [show ((u : ℚ) / (t : ℚ) * 100) = ((100 * u : ℕ) : ℚ) / ((t : ℕ) : ℚ) from by
    push_cast; ring]
  exact pyIntTrunc_div_natCast (100 * u) t

/-- Claim C5: when the primary RAM source is unavailable (`ram_primary`
yields nothing — timeout, absence, failure, or bad column count), the
result is computed solely from the kernel memory-info fallback: a missing
`MemTotal` key is a hard error; otherwise all five fields are present,
`available` prefers `MemAvailable` over `MemFree`, `used = total −
available`, all four counts go through the byte formatter, and
`use_percent = ⌊100·used/total⌋` (0 when total is 0). -/
theorem claim_ram_fallback (freeR : ProcOutcome) (hp : ram_primary freeR = none)
    (content : String) :
    (parse_meminfo content "MemTotal" = none →
      get_ram_usage freeR (.ok content) = .err "Unable to determine RAM usage") ∧
    (∀ total : ℕ, parse_meminfo content "MemTotal" = some total →
      meminfoAvail content ≤ total →
      get_ram_usage freeR (.ok content) = RamResult.ok {
        total := format_bytes (total : ℚ),
        used := format_bytes ((total - meminfoAvail content : ℕ) : ℚ),
        free := format_bytes ((meminfoFree content : ℕ) : ℚ),
        available := format_bytes ((meminfoAvail content : ℕ) : ℚ),
        use_percent := if total = 0 then 0
          else ((100 * (total - meminfoAvail content) / total : ℕ) : ℤ) }) := by
  constructor
  · intro h0
    rw [get_ram_usage_of_primary_none hp]
    show ram_from_meminfo content = _
    unfold ram_from_meminfo
    rw [h0]
  · intro total htot hle
    rw [get_ram_usage_of_primary_none hp]
    show ram_from_meminfo content = _
    unfold ram_from_meminfo
    rw [htot]
    have hcast : (((total : ℤ) - ((parse_meminfo content "MemAvailable").getD
        ((parse_meminfo content "MemFree").getD 0) : ℤ) : ℤ) : ℚ) =
        ((total - meminfoAvail content : ℕ) : ℚ) := by
      rw [show ((parse_meminfo content "MemAvailable").getD
        ((parse_meminfo content "MemFree").getD 0)) = meminfoAvail content from rfl]
      push_cast [hle]
      ring
    show RamResult.ok
      { total := format_bytes (total : ℚ),
        used := format_bytes ((((total : ℤ) -
          ((parse_meminfo content "MemAvailable").getD
            ((parse_meminfo content "MemFree").getD 0) : ℤ) : ℤ) : ℚ)),
        free := format_bytes (((parse_meminfo content "MemFree").getD 0 : ℕ) : ℚ),
        available := format_bytes (((parse_meminfo content "MemAvailable").getD
          ((parse_meminfo content "MemFree").getD 0) : ℕ) : ℚ),
        use_percent :=
          if 0 < total then
            pyIntTrunc (((((total : ℤ) -
              ((parse_meminfo content "MemAvailable").getD
                ((parse_meminfo content "MemFree").getD 0) : ℤ) : ℤ) : ℚ)) /
              ((total : ℕ) : ℚ) * 100)
          else 0 } = _
    rw [hcast]
    have hup : (if 0 < total then
        pyIntTrunc (((total - meminfoAvail content : ℕ) : ℚ) /
          ((total : ℕ) : ℚ) * 100)
      else 0) = (if total = 0 then 0
        else ((100 * (total - meminfoAvail content) / total : ℕ) : ℤ)) := by
      by_cases h0 : total = 0
      · subst h0
        rw [if_neg (by omega), if_pos rfl]
      · rw [if_pos (by omega), if_neg h0, pyIntTrunc_pct]
    rw [hup]
    rfl

/-- Witness for **C5**: `free -h` timing out, `/proc/meminfo` carrying
`MemTotal: 4 kB` and `MemFree: 1 kB` — five fields from the fallback,
with `use_percent = ⌊100·3072/4096⌋ = 75`. -/
theorem claim_ram_fallback_witness :
    get_ram_usage .timeout (.ok "MemTotal: 4 kB\nMemFree: 1 kB") =
      RamResult.ok
        { total := format_bytes ((4096 : ℕ) : ℚ),
          used := format_bytes ((4096 - meminfoAvail "MemTotal: 4 kB\nMemFree: 1 kB" : ℕ) : ℚ),
          free := format_bytes ((meminfoFree "MemTotal: 4 kB\nMemFree: 1 kB" : ℕ) : ℚ),
          available := format_bytes ((meminfoAvail "MemTotal: 4 kB\nMemFree: 1 kB" : ℕ) : ℚ),
          use_percent := if (4096 : ℕ) = 0 then 0
            else ((100 * (4096 - meminfoAvail "MemTotal: 4 kB\nMemFree: 1 kB") /
              4096 : ℕ) : ℤ) } :=
  (claim_ram_fallback .timeout rfl "MemTotal: 4 kB\nMemFree: 1 kB").2
    4096 (by decide) (by decide)

theorem fmtOneDec_shape (q : ℚ) (hq : 0 ≤ q) :
    ∃ n d : ℕ, d < 10 ∧ fmtOneDec q = toString n ++ "." ++ toString d := by
  have hfl : (0 : ℤ) ≤ ⌊q * 10⌋ := Int.floor_nonneg.mpr (by positivity)
  have ht : 0 ≤ roundHalfEven (q * 10) := by
    unfold roundHalfEven
    split
    · exact hfl
    · split
      · omega
      · split
        · exact hfl
        · omega
  refine ⟨(roundHalfEven (q * 10) / 10).toNat, (roundHalfEven (q * 10) % 10).toNat,
    ?_, ?_⟩
  · have h1 : 0 ≤ roundHalfEven (q * 10) % 10 := Int.emod_nonneg _ (by norm_num)
    have h2 : roundHalfEven (q * 10) % 10 < 10 := Int.emod_lt_of_pos _ (by norm_num)
    omega
  · unfold fmtOneDec
    rw [if_neg (not_lt.mpr hq)]
    unfold fmtOneDecNN
    rw [toString_int_toNat _ (Int.ediv_nonneg ht (by norm_num)),
      toString_int_toNat _ (Int.emod_nonneg _ (by norm_num))]

/-- Claim C1: `_format_bytes` picks unit `B` for `b < 1024`, `KB` for
`1024 ≤ b < 1024²`, `MB` for `1024² ≤ b < 1024³`, `GB` for
`1024³ ≤ b < 1024⁴` and `TB` for `b ≥ 1024⁴`, renders the value divided
by 1024 once per unit step, and the rendered number always has exactly
one decimal digit with no space before the unit suffix. -/
theorem claim_format_bytes (b : ℕ) :
    ∃ n d : ℕ, d < 10 ∧
      format_bytes (b : ℚ) = toString n ++ "." ++ toString d ++ specUnit b ∧
      fmtOneDec ((b : ℚ) / 1024 ^ specUnitIndex b) = toString n ++ "." ++ toString d := by
  have c1 : ((b : ℚ) / 1024 ^ 1 < 1024) ↔ b < 1024 ^ 2 := by
    rw [div_lt_iff (by positivity),
      show (1024 : ℚ) * 1024 ^ 1 = ((1024 ^ 2 : ℕ) : ℚ) from by push_cast; ring]
    exact Nat.cast_lt
  have c2 : ((b : ℚ) / 1024 ^ 2 < 1024) ↔ b < 1024 ^ 3 := by
    rw [div_lt_iff (by positivity),
      show (1024 : ℚ) * 1024 ^ 2 = ((1024 ^ 3 : ℕ) : ℚ) from by push_cast; ring]
    exact Nat.cast_lt
  have c3 : ((b : ℚ) / 1024 ^ 3 < 1024) ↔ b < 1024 ^ 4 := by
    rw [div_lt_iff (by positivity),
      show (1024 : ℚ) * 1024 ^ 3 = ((1024 ^ 4 : ℕ) : ℚ) from by push_cast; ring]
    exact Nat.cast_lt
  have key : format_bytes (b : ℚ) =
      fmtOneDec ((b : ℚ) / 1024 ^ specUnitIndex b) ++ specUnit b := by
    have e4 : (b : ℚ) / 1024 / 1024 / 1024 / 1024 = (b : ℚ) / 1024 ^ 4 := by
      rw [div_div, div_div, div_div]; norm_num
    have e3 : (b : ℚ) / 1024 / 1024 / 1024 = (b : ℚ) / 1024 ^ 3 := by
      rw [div_div, div_div]; norm_num
    have e2 : (b : ℚ) / 1024 / 1024 = (b : ℚ) / 1024 ^ 2 := by
      rw [div_div]; norm_num
    have e1 : (b : ℚ) / 1024 = (b : ℚ) / 1024 ^ 1 := by norm_num
    simp only [format_bytes, format_bytes_go]
    rw [e4, e3, e2, e1]
    unfold specUnit specUnitIndex
    by_cases h1 : b < 1024
    · rw [if_pos (show (b : ℚ) < 1024 from by exact_mod_cast h1), if_pos h1, if_pos h1,
        pow_zero, div_one]
    · rw [if_neg (show ¬ (b : ℚ) < 1024 from by exact_mod_cast h1), if_neg h1,
        if_neg h1]
      by_cases h2 : b < 1024 ^ 2
      · rw [if_pos (c1.mpr h2), if_pos h2, if_pos h2]
      · rw [if_neg (fun hq => h2 (c1.mp hq)), if_neg h2, if_neg h2]
        by_cases h3 : b < 1024 ^ 3
        · rw [if_pos (c2.mpr h3), if_pos h3, if_pos h3]
        · rw [if_neg (fun hq => h3 (c2.mp hq)), if_neg h3, if_neg h3]
          by_cases h4 : b < 1024 ^ 4
          · rw [if_pos (c3.mpr h4), if_pos h4, if_pos h4]
          · rw [if_neg (fun hq => h4 (c3.mp hq)), if_neg h4, if_neg h4]
  obtain ⟨n, d, hd, hs⟩ :=
    fmtOneDec_shape ((b : ℚ) / 1024 ^ specUnitIndex b) (by positivity)
  exact ⟨n, d, hd, by rw [key, hs], hs⟩

end Dashboard
